import Mathlib

/-!
Shallow embedding of the phone-a-friend hub (src/phone_a_friend/hub.py).

Connections (asyncio StreamWriter objects) are modelled as natural-number
identifiers.  Python dicts are modelled as ordered association lists with
Python dict semantics: assignment replaces an existing key in place and
appends a new key at the end; iteration follows list order.  Wall-clock
times (time.time) are natural numbers passed in as parameters.  A fallible
network write to connection c is modelled by an oracle
wfail : Conn -> Option String, where none means the write succeeds and
some e means it raises an exception with text e.
-/

set_option maxRecDepth 16384

namespace Hub

/-- Connection identifier standing for an asyncio StreamWriter; distinct numbers are distinct connections. -/
abbrev Conn := Nat

/-- JSON-like scalar values appearing in hub responses and pushed envelopes. -/
inductive JVal where
  | jnull : JVal
  | jbool : Bool → JVal
  | jstr : String → JVal
deriving DecidableEq, Repr

/-- A JSON object, as an ordered list of key/value fields. -/
abbrev Resp := List (String × JVal)

/-- Lookup in a Python dict modelled as an ordered association list (d.get(key) / d[key]). -/
def dictGet {α : Type} : List (String × α) → String → Option α
  | [], _ => none
  | (k, v) :: t, key => if k = key then some v else dictGet t key

/-- Assignment d[key] = v on a Python dict: replaces the value in place when the key is present, appends otherwise. -/
def dictSet {α : Type} : List (String × α) → String → α → List (String × α)
  | [], key, v => [(key, v)]
  | (k, w) :: t, key, v => if k = key then (key, v) :: t else (k, w) :: dictSet t key v

/-- Deletion del d[key] on a Python dict. -/
def dictDel {α : Type} (l : List (String × α)) (key : String) : List (String × α) :=
  l.filter (fun p => decide (p.1 ≠ key))

/-- Python truthiness of an Optional string: None and the empty string are falsy. -/
def pyTruthy : Option String → Bool
  | none => false
  | some s => !(s == "")

/-- An active listening session (dataclass Session in hub.py). -/
structure Session where
  name : String
  description : String
  writer : Conn
  current_caller : Option String
  current_intent : Option String
  last_activity : Nat
deriving DecidableEq, Repr

/-- Global state of the hub (dataclass HubState in hub.py; the asyncio lock is not part of the data). -/
structure HubState where
  sessions : List (String × Session)
  callers : List (String × Conn)
deriving DecidableEq, Repr

/-- The state the hub starts in: both maps empty. -/
def emptyHub : HubState := ⟨[], []⟩

/-- Idle timeout constant from hub.py: 60 * 60 seconds. -/
def IDLE_TIMEOUT_SECONDS : Nat := 60 * 60

/-- The border line of the banner, 60 equals signs. -/
def border60 : String := String.mk (List.replicate 60 '=')

/-- The fixed guidance block appended to the banner when the directive is included. -/
def guidelines_text : String :=
  "\n\nGUIDELINES:\n- Stay focused on the topic above\n- When the topic is fully understood and resolved, naturally conclude the conversation\n- Either party can end by saying the discussion is complete\n- Idle conversations will auto-disconnect after 60 minutes\n"

/-- Format the intent as a visible banner with optional conversation guidelines (format_intent_banner in hub.py). -/
def format_intent_banner (intent : String) (include_directive : Bool) : String :=
  let banner := "\n" ++ border60 ++ "\nCONVERSATION FOCUS: " ++ intent ++ "\n" ++ border60
  if include_directive then banner ++ guidelines_text else banner

/-- Result of running one handler: the new hub state, the handler's return value, and the writes it attempted to peer connections, in order. -/
structure HandlerResult where
  state : HubState
  response : Resp
  writes : List (Conn × Resp)
deriving DecidableEq, Repr

/-- Handle a listen request (handle_listen in hub.py): register the session or fail if the name exists. -/
def handle_listen (st : HubState) (session_name descr : String) (writer : Conn) (now : Nat) :
    HandlerResult :=
  if (dictGet st.sessions session_name).isSome then
    ⟨st, [("error", JVal.jstr ("Session \x27" ++ session_name ++ "\x27 already exists"))], []⟩
  else
    let session : Session := ⟨session_name, descr, writer, none, none, now⟩
    ⟨{ st with sessions := dictSet st.sessions session_name session },
      [("status", JVal.jstr "listening"), ("session", JVal.jstr session_name)], []⟩

/-- List all active sessions (handle_list_sessions in hub.py): name, description, and busy = current_caller is not None. -/
def handle_list_sessions (st : HubState) : List (String × String × Bool) :=
  st.sessions.map (fun p => (p.2.name, p.2.description, p.2.current_caller.isSome))

/-- Connect to a listening session (handle_connect in hub.py).  The busy test mirrors the Python condition session.current_caller and session.current_caller != my_name, including the truthiness of the empty string. -/
def handle_connect (st : HubState) (target intent my_name : String) (writer : Conn) :
    HandlerResult :=
  match dictGet st.sessions target with
  | none => ⟨st, [("error", JVal.jstr ("Session \x27" ++ target ++ "\x27 not found"))], []⟩
  | some session =>
    if pyTruthy session.current_caller && (session.current_caller != some my_name) then
      ⟨st, [("error", JVal.jstr ("Session \x27" ++ target ++ "\x27 is busy"))], []⟩
    else
      ⟨{ st with
           sessions := dictSet st.sessions target
             { session with current_caller := some my_name, current_intent := some intent },
           callers := dictSet st.callers my_name writer },
        [("connected", JVal.jbool true), ("target", JVal.jstr target),
         ("intent", JVal.jstr intent),
         ("intent_banner", JVal.jstr (format_intent_banner intent true))], []⟩

/-- Send a message to a listener (handle_send in hub.py).  The caller mapping and last_activity are updated before the write is attempted; include_directive mirrors session.current_caller != my_name. -/
def handle_send (st : HubState) (target message my_name : String) (writer : Conn) (now : Nat)
    (wfail : Conn → Option String) : HandlerResult :=
  match dictGet st.sessions target with
  | none => ⟨st, [("error", JVal.jstr ("Session \x27" ++ target ++ "\x27 not found"))], []⟩
  | some session =>
    let st2 : HubState :=
      { st with callers := dictSet st.callers my_name writer,
                sessions := dictSet st.sessions target { session with last_activity := now } }
    let include_directive := session.current_caller != some my_name
    let msg : Resp :=
      [("type", JVal.jstr "message"), ("from", JVal.jstr my_name),
       ("message", JVal.jstr message),
       ("intent", match session.current_intent with | none => JVal.jnull | some i => JVal.jstr i),
       ("intent_banner",
         match session.current_intent with
         | none => JVal.jnull
         | some i =>
           if i = "" then JVal.jnull else JVal.jstr (format_intent_banner i include_directive))]
    match wfail session.writer with
    | some e =>
      ⟨st2, [("error", JVal.jstr ("Failed to send to listener: " ++ e))], [(session.writer, msg)]⟩
    | none => ⟨st2, [("sent", JVal.jbool true), ("to", JVal.jstr target)], [(session.writer, msg)]⟩

/-- Send a response back to the attached caller (handle_respond in hub.py).  The first guard mirrors Python not session.current_caller, so an empty-string caller name is treated as no caller. -/
def handle_respond (st : HubState) (session_name message : String) (now : Nat)
    (wfail : Conn → Option String) : HandlerResult :=
  match dictGet st.sessions session_name with
  | none => ⟨st, [("error", JVal.jstr ("Session \x27" ++ session_name ++ "\x27 not found"))], []⟩
  | some session =>
    match session.current_caller with
    | none => ⟨st, [("error", JVal.jstr "No caller connected")], []⟩
    | some c =>
      if c = "" then ⟨st, [("error", JVal.jstr "No caller connected")], []⟩
      else
        match dictGet st.callers c with
        | none => ⟨st, [("error", JVal.jstr "Caller connection lost")], []⟩
        | some caller_writer =>
          let session2 : Session := { session with last_activity := now }
          let st2 : HubState :=
            { st with sessions := dictSet st.sessions session_name session2 }
          let msg : Resp := [("type", JVal.jstr "response"), ("from", JVal.jstr session_name),
                             ("message", JVal.jstr message)]
          match wfail caller_writer with
          | some e =>
            ⟨st2, [("error", JVal.jstr ("Failed to send response: " ++ e))], [(caller_writer, msg)]⟩
          | none => ⟨st2, [("sent", JVal.jbool true), ("to", JVal.jstr c)], [(caller_writer, msg)]⟩

/-- Update the conversation intent (handle_refocus in hub.py).  The source neither reads the clock nor touches last_activity here, and the notification write sits in a try/except pass, so the time parameter and the write oracle are ignored. -/
def handle_refocus (st : HubState) (session_name new_intent : String) (_now : Nat)
    (_wfail : Conn → Option String) : HandlerResult :=
  match dictGet st.sessions session_name with
  | none => ⟨st, [("error", JVal.jstr ("Session \x27" ++ session_name ++ "\x27 not found"))], []⟩
  | some session =>
    let old_intent := session.current_intent
    let session2 : Session := { session with current_intent := some new_intent }
    let st2 : HubState :=
      { st with sessions := dictSet st.sessions session_name session2 }
    let notify : List (Conn × Resp) :=
      match session.current_caller with
      | none => []
      | some c =>
        if c = "" then []
        else
          match dictGet st.callers c with
          | none => []
          | some caller_writer =>
            [(caller_writer,
              [("type", JVal.jstr "refocus"), ("new_intent", JVal.jstr new_intent),
               ("intent_banner", JVal.jstr (format_intent_banner new_intent true))])]
    ⟨st2, [("updated", JVal.jbool true),
           ("old_intent", match old_intent with | none => JVal.jnull | some i => JVal.jstr i),
           ("new_intent", JVal.jstr new_intent),
           ("intent_banner", JVal.jstr (format_intent_banner new_intent true))], notify⟩

/-- End a listening session (handle_end_session in hub.py): delete it when present, and return closed true either way. -/
def handle_end_session (st : HubState) (session_name : String) : HandlerResult :=
  if (dictGet st.sessions session_name).isSome then
    ⟨{ st with sessions := dictDel st.sessions session_name },
      [("closed", JVal.jbool true), ("session", JVal.jstr session_name)], []⟩
  else
    ⟨st, [("closed", JVal.jbool true), ("session", JVal.jstr session_name)], []⟩

/-- Decision in the client loop (handle_client in hub.py) whether the handler response is written back on the requesting connection: every action except a successful listen. -/
def handle_client_sends_response (action : String) (response : Resp) : Bool :=
  decide (action ≠ "listen") || (dictGet response "error").isSome

/-- Cleanup on client-loop exit (the finally block of handle_client): remove every session owned by this connection; the callers map is untouched. -/
def handle_client_cleanup (st : HubState) (writer : Conn) : HubState :=
  { st with sessions := st.sessions.filter (fun p => decide (p.2.writer ≠ writer)) }

/-- Process one listen request line arriving on connection conn: run the handler and then apply the client loop response-emission rule.  Returns the new state and every line written, as connection/line pairs in order. -/
def process_listen_request (st : HubState) (session_name descr : String) (conn : Conn) (now : Nat) :
    HubState × List (Conn × Resp) :=
  let r := handle_listen st session_name descr conn now
  (r.state,
   r.writes ++ (if handle_client_sends_response "listen" r.response then [(conn, r.response)] else []))

/-- Process one send request line arriving on connection conn, like process_listen_request. -/
def process_send_request (st : HubState) (target message my_name : String) (conn : Conn) (now : Nat)
    (wfail : Conn → Option String) : HubState × List (Conn × Resp) :=
  let r := handle_send st target message my_name conn now wfail
  (r.state,
   r.writes ++ (if handle_client_sends_response "send" r.response then [(conn, r.response)] else []))

/-- All lines written to connection c, in order. -/
def writesTo (ws : List (Conn × Resp)) (c : Conn) : List Resp :=
  (ws.filter (fun p => p.1 == c)).map (fun p => p.2)

/-- The timeout notice pushed to an evicted session. -/
def timeout_notice : Resp :=
  [("type", JVal.jstr "timeout"),
   ("message", JVal.jstr "Session disconnected due to 60 minutes of inactivity")]

/-- One tick of the idle checker (the body of the while loop in check_idle_sessions): evict every session idle strictly longer than the timeout, attempting a timeout notice to each evicted session first; the notice and close sit in a try/except pass, so the write oracle is ignored. -/
def check_idle_sessions_tick (st : HubState) (now : Nat) (_wfail : Conn → Option String) :
    HubState × List (Conn × Resp) :=
  let to_remove := st.sessions.filter (fun p => decide (now - p.2.last_activity > IDLE_TIMEOUT_SECONDS))
  ({ st with sessions :=
       st.sessions.filter (fun p => decide (¬ (now - p.2.last_activity > IDLE_TIMEOUT_SECONDS))) },
   to_remove.map (fun p => (p.2.writer, timeout_notice)))

/-- Looking up the key just assigned returns the assigned value. -/
theorem dictGet_dictSet_self {α : Type} (l : List (String × α)) (k : String) (v : α) :
    dictGet (dictSet l k v) k = some v := by
  induction l with
  | nil => simp [dictGet, dictSet]
  | cons p t ih =>
    obtain ⟨k2, v2⟩ := p
    by_cases h : k2 = k
    · subst h; simp [dictGet, dictSet]
    · simp [dictGet, dictSet, h, ih]

/-- Assigning one key leaves lookups of any other key unchanged. -/
theorem dictGet_dictSet_ne {α : Type} (l : List (String × α)) (k k2 : String) (v : α)
    (h : k2 ≠ k) : dictGet (dictSet l k v) k2 = dictGet l k2 := by
  induction l with
  | nil => simp [dictGet, dictSet, Ne.symm h]
  | cons p t ih =>
    obtain ⟨k3, v3⟩ := p
    by_cases h3 : k3 = k
    · subst h3
      simp [dictGet, dictSet, Ne.symm h]
    · simp [dictGet, dictSet, h3, ih]

/-- When every entry stored under a key is dropped by the filter, the filtered dict has no entry for that key. -/
theorem dictGet_filter_eq_none {α : Type} (l : List (String × α)) (q : String × α → Bool)
    (k : String) (h : ∀ v, (k, v) ∈ l → q (k, v) = false) :
    dictGet (l.filter q) k = none := by
  induction l with
  | nil => simp [dictGet]
  | cons p t ih =>
    obtain ⟨k2, v2⟩ := p
    have iht : dictGet (t.filter q) k = none :=
      ih (fun v hv => h v (List.mem_cons_of_mem _ hv))
    by_cases hk : k2 = k
    · subst hk
      have hq : q (k2, v2) = false := h v2 (List.mem_cons_self _ _)
      simp [List.filter_cons, hq, iht]
    · cases hq : q (k2, v2) with
      | false => simp [List.filter_cons, hq, iht]
      | true => simp [List.filter_cons, hq, dictGet, hk, iht]

/-- Deleting a key removes it from the dict. -/
theorem dictGet_dictDel_self {α : Type} (l : List (String × α)) (k : String) :
    dictGet (dictDel l k) k = none := by
  refine dictGet_filter_eq_none l _ k (fun v _ => ?_)
  simp

/-- A fixed one-session state used to instantiate theorems at concrete inputs. -/
def sessW : Session := ⟨"alice", "d", 3, none, none, 0⟩

/-- A hub state holding just sessW under its name. -/
def hubW : HubState := ⟨[("alice", sessW)], []⟩

/-- Claim C1: registering a name that is live fails with the already-exists error and leaves the state unchanged; otherwise a fresh session owned by the requesting connection, with no caller and last_activity = now, is inserted; and after the session is removed by end_session, by owner disconnect cleanup, or by idle eviction, registering the same name succeeds again. -/
theorem listen_register_spec (st : HubState) (nm descr : String) (w : Conn) (now : Nat) :
    (∀ s, dictGet st.sessions nm = some s →
       handle_listen st nm descr w now =
         ⟨st, [("error", JVal.jstr ("Session \x27" ++ nm ++ "\x27 already exists"))], []⟩)
  ∧ (dictGet st.sessions nm = none →
       handle_listen st nm descr w now =
         ⟨{ st with sessions := dictSet st.sessions nm ⟨nm, descr, w, none, none, now⟩ },
           [("status", JVal.jstr "listening"), ("session", JVal.jstr nm)], []⟩)
  ∧ (∀ d2 w2 n2, (handle_listen (handle_end_session st nm).state nm d2 w2 n2).response =
       [("status", JVal.jstr "listening"), ("session", JVal.jstr nm)])
  ∧ (∀ d2 w2 n2, (∀ p ∈ st.sessions, p.1 = nm → p.2.writer = w) →
       (handle_listen (handle_client_cleanup st w) nm d2 w2 n2).response =
         [("status", JVal.jstr "listening"), ("session", JVal.jstr nm)])
  ∧ (∀ d2 w2 n2 wfl, (∀ p ∈ st.sessions, p.1 = nm → now - p.2.last_activity > IDLE_TIMEOUT_SECONDS) →
       (handle_listen (check_idle_sessions_tick st now wfl).1 nm d2 w2 n2).response =
         [("status", JVal.jstr "listening"), ("session", JVal.jstr nm)]) := by
  refine ⟨?_, ?_, ?_, ?_, ?_⟩
  · intro s h
    simp [handle_listen, h]
  · intro h
    simp [handle_listen, h]
  · intro d2 w2 n2
    have hnone : dictGet (handle_end_session st nm).state.sessions nm = none := by
      cases hd : dictGet st.sessions nm with
      | none => simp [handle_end_session, hd]
      | some s => simp [handle_end_session, hd, dictGet_dictDel_self]
    simp [handle_listen, hnone]
  · intro d2 w2 n2 h
    have hnone : dictGet (handle_client_cleanup st w).sessions nm = none := by
      simp only [handle_client_cleanup]
      refine dictGet_filter_eq_none _ _ _ (fun s hv => ?_)
      simpa using h (nm, s) hv rfl
    simp [handle_listen, hnone]
  · intro d2 w2 n2 wfl h
    have hnone : dictGet (check_idle_sessions_tick st now wfl).1.sessions nm = none := by
      simp only [check_idle_sessions_tick]
      refine dictGet_filter_eq_none _ _ _ (fun s hv => ?_)
      have hgt := h (nm, s) hv rfl
      show decide (¬ (now - s.last_activity > IDLE_TIMEOUT_SECONDS)) = false
      simp only [decide_eq_false_iff_not, not_not]
      exact hgt
    simp [handle_listen, hnone]

/-- Concrete instantiation of listen_register_spec at a one-session state. -/
theorem listen_register_spec_witness :
    handle_listen hubW "alice" "x" 4 9 =
      ⟨hubW, [("error", JVal.jstr ("Session \x27" ++ "alice" ++ "\x27 already exists"))], []⟩
  ∧ (handle_listen (handle_end_session hubW "alice").state "alice" "y" 5 10).response =
      [("status", JVal.jstr "listening"), ("session", JVal.jstr "alice")]
  ∧ (handle_listen (handle_client_cleanup hubW 3) "alice" "y" 5 10).response =
      [("status", JVal.jstr "listening"), ("session", JVal.jstr "alice")]
  ∧ (handle_listen (check_idle_sessions_tick hubW 4000 (fun _ => none)).1 "alice" "y" 5 10).response =
      [("status", JVal.jstr "listening"), ("session", JVal.jstr "alice")] := by
  refine ⟨?_, ?_, ?_, ?_⟩
  · exact (listen_register_spec hubW "alice" "x" 4 9).1 sessW (by decide)
  · exact (listen_register_spec hubW "alice" "x" 4 9).2.2.1 "y" 5 10
  · exact (listen_register_spec hubW "alice" "x" 3 9).2.2.2.1 "y" 5 10 (by decide)
  · exact (listen_register_spec hubW "alice" "x" 4 4000).2.2.2.2 "y" 5 10 (fun _ => none) (by decide)

/-- State reached by registering alice and then connecting to her with the empty string as caller name. -/
def hubEmptyCaller : HubState :=
  (handle_connect (handle_listen emptyHub "alice" "d" 0 0).state "alice" "t" "" 1).state

/-- Claim C2 counterexample: in a reachable state where alice's current_caller is set to the empty string, a connect by the different name bob succeeds instead of failing Busy, because the source tests Python truthiness of current_caller, which treats the empty string as unset. -/
theorem connect_busy_counterexample :
    (dictGet hubEmptyCaller.sessions "alice").map (fun s => s.current_caller) = some (some "")
  ∧ ("" : String) ≠ "bob"
  ∧ (handle_connect hubEmptyCaller "alice" "t2" "bob" 2).response =
      [("connected", JVal.jbool true), ("target", JVal.jstr "alice"),
       ("intent", JVal.jstr "t2"),
       ("intent_banner", JVal.jstr (format_intent_banner "t2" true))]
  ∧ (handle_connect hubEmptyCaller "alice" "t2" "bob" 2).response ≠
      [("error", JVal.jstr ("Session \x27" ++ "alice" ++ "\x27 is busy"))] := by
  decide

/-- Claim C2 amended: connect fails NotFound when the target is absent and leaves the state unchanged; fails Busy, unchanged, when current_caller holds a nonempty name different from my_name; otherwise (caller unset, empty, or equal to my_name) it sets current_caller = my_name and current_intent = intent, overwrites the caller mapping for my_name with the requesting connection, and returns the connect confirmation carrying target, intent, and the rendered banner, so re-attaching with the same caller name is idempotent success rather than Busy. -/
theorem connect_spec (st : HubState) (target intent my_name : String) (w : Conn) :
    (dictGet st.sessions target = none →
       handle_connect st target intent my_name w =
         ⟨st, [("error", JVal.jstr ("Session \x27" ++ target ++ "\x27 not found"))], []⟩)
  ∧ (∀ s c, dictGet st.sessions target = some s → s.current_caller = some c → c ≠ "" →
       c ≠ my_name →
       handle_connect st target intent my_name w =
         ⟨st, [("error", JVal.jstr ("Session \x27" ++ target ++ "\x27 is busy"))], []⟩)
  ∧ (∀ s, dictGet st.sessions target = some s →
       (s.current_caller = none ∨ s.current_caller = some "" ∨ s.current_caller = some my_name) →
       handle_connect st target intent my_name w =
         ⟨{ st with
              sessions := dictSet st.sessions target (
                { s with current_caller := some my_name, current_intent := some intent }),
              callers := dictSet st.callers my_name w },
           [("connected", JVal.jbool true), ("target", JVal.jstr target),
            ("intent", JVal.jstr intent),
            ("intent_banner", JVal.jstr (format_intent_banner intent true))], []⟩) := by
  refine ⟨?_, ?_, ?_⟩
  · intro h
    simp [handle_connect, h]
  · intro s c h hc hne hnm
    simp [handle_connect, h, hc, pyTruthy, hne, hnm]
  · intro s h hdisj
    rcases hdisj with hc | hc | hc <;> simp [handle_connect, h, hc, pyTruthy]

/-- Concrete instantiation of connect_spec: a first connect to an idle session succeeds with the full state update. -/
theorem connect_spec_witness :
    handle_connect hubW "alice" "topic" "bob" 7 =
      ⟨{ hubW with
           sessions := dictSet hubW.sessions "alice" (
             { sessW with current_caller := some "bob", current_intent := some "topic" }),
           callers := dictSet hubW.callers "bob" 7 },
        [("connected", JVal.jbool true), ("target", JVal.jstr "alice"),
         ("intent", JVal.jstr "topic"),
         ("intent_banner", JVal.jstr (format_intent_banner "topic" true))], []⟩ :=
  (connect_spec hubW "alice" "topic" "bob" 7).2.2 sessW (by decide) (Or.inl (by decide))

/-- State after registering alice on connection 0. -/
def hubC3Listening : HubState := (handle_listen emptyHub "alice" "auth helper" 0 0).state

/-- State right after bob successfully connects to alice with intent debug auth. -/
def hubC3Connected : HubState := (handle_connect hubC3Listening "alice" "debug auth" "bob" 1).state

/-- The first send by bob after his connect. -/
def c3FirstSend : HandlerResult := handle_send hubC3Connected "alice" "hi" "bob" 1 5 (fun _ => none)

/-- A later send by bob on the same session. -/
def c3SecondSend : HandlerResult :=
  handle_send c3FirstSend.state "alice" "more" "bob" 1 6 (fun _ => none)

/-- A send by carol, who never connected, while bob is attached. -/
def c3CarolSend : HandlerResult :=
  handle_send c3SecondSend.state "alice" "hey" "carol" 2 7 (fun _ => none)

/-- A second send by carol on the same session. -/
def c3CarolSend2 : HandlerResult :=
  handle_send c3CarolSend.state "alice" "again" "carol" 2 8 (fun _ => none)

/-- Claim C3: the source comment says the directive is included only on first contact, but the condition current_caller != my_name is already false right after connect, so bob's literal first message after connecting carries the banner without the guidance block, while every message from the non-attached sender carol carries the guidance block, including her second one.  The banner with guidance is exactly the bare banner followed by guidelines_text. -/
theorem send_first_contact_banner_bug :
    (dictGet hubC3Connected.sessions "alice").map (fun s => s.current_caller) = some (some "bob")
  ∧ c3FirstSend.writes =
      [(0, [("type", JVal.jstr "message"), ("from", JVal.jstr "bob"),
            ("message", JVal.jstr "hi"), ("intent", JVal.jstr "debug auth"),
            ("intent_banner", JVal.jstr (format_intent_banner "debug auth" false))])]
  ∧ c3SecondSend.writes =
      [(0, [("type", JVal.jstr "message"), ("from", JVal.jstr "bob"),
            ("message", JVal.jstr "more"), ("intent", JVal.jstr "debug auth"),
            ("intent_banner", JVal.jstr (format_intent_banner "debug auth" false))])]
  ∧ c3CarolSend.writes =
      [(0, [("type", JVal.jstr "message"), ("from", JVal.jstr "carol"),
            ("message", JVal.jstr "hey"), ("intent", JVal.jstr "debug auth"),
            ("intent_banner", JVal.jstr (format_intent_banner "debug auth" true))])]
  ∧ c3CarolSend2.writes =
      [(0, [("type", JVal.jstr "message"), ("from", JVal.jstr "carol"),
            ("message", JVal.jstr "again"), ("intent", JVal.jstr "debug auth"),
            ("intent_banner", JVal.jstr (format_intent_banner "debug auth" true))])]
  ∧ format_intent_banner "debug auth" true = format_intent_banner "debug auth" false ++ guidelines_text
  ∧ format_intent_banner "debug auth" false ≠ format_intent_banner "debug auth" true := by
  decide

/-- Claim C4 counterexample: an end_session naming no live session returns the normal closed confirmation, carrying no error key, instead of a NotFound error. -/
theorem end_session_notfound_counterexample :
    dictGet emptyHub.sessions "alice" = none
  ∧ (handle_end_session emptyHub "alice").response =
      [("closed", JVal.jbool true), ("session", JVal.jstr "alice")]
  ∧ dictGet (handle_end_session emptyHub "alice").response "error" = none := by
  decide

/-- Claim C4 amended: end_session is an idempotent close: when the name is absent the state is unchanged and the response is still the closed confirmation; in every case the response is the closed confirmation, the named session is gone afterwards, and the callers map is untouched. -/
theorem end_session_spec (st : HubState) (nm : String) :
    (dictGet st.sessions nm = none → handle_end_session st nm =
       ⟨st, [("closed", JVal.jbool true), ("session", JVal.jstr nm)], []⟩)
  ∧ (handle_end_session st nm).response = [("closed", JVal.jbool true), ("session", JVal.jstr nm)]
  ∧ dictGet (handle_end_session st nm).state.sessions nm = none
  ∧ (handle_end_session st nm).state.callers = st.callers := by
  refine ⟨?_, ?_, ?_, ?_⟩
  · intro h
    simp [handle_end_session, h]
  · by_cases h : (dictGet st.sessions nm).isSome <;> simp [handle_end_session, h]
  · cases hd : dictGet st.sessions nm with
    | none => simp [handle_end_session, hd]
    | some s => simp [handle_end_session, hd, dictGet_dictDel_self]
  · by_cases h : (dictGet st.sessions nm).isSome <;> simp [handle_end_session, h]

/-- Concrete instantiation of end_session_spec on an absent name. -/
theorem end_session_spec_witness :
    handle_end_session emptyHub "zed" =
      ⟨emptyHub, [("closed", JVal.jbool true), ("session", JVal.jstr "zed")], []⟩ :=
  (end_session_spec emptyHub "zed").1 (by decide)

/-- Claim C5 counterexample: a successful listen computes the listening status object but the client loop suppresses it, so nothing at all is written back on the requesting connection, contradicting the promised immediate status line. -/
theorem listen_ack_counterexample :
    (handle_listen emptyHub "alice" "d" 0 0).response =
      [("status", JVal.jstr "listening"), ("session", JVal.jstr "alice")]
  ∧ (process_listen_request emptyHub "alice" "d" 0 0).2 = []
  ∧ (process_listen_request emptyHub "alice" "d" 0 0).2 ≠
      [(0, [("status", JVal.jstr "listening"), ("session", JVal.jstr "alice")])] := by
  decide

/-- Claim C5 amended: for every successful listen request the hub writes no line back at all for that request; the next line on the registering connection is the delivered message envelope of the first message routed to the session. -/
theorem listen_deferred_spec (st : HubState) (nm descr : String) (c : Conn) (now : Nat)
    (h : dictGet st.sessions nm = none) :
    (process_listen_request st nm descr c now).2 = []
  ∧ (∀ msg sender c2 now2 wfl, c2 ≠ c → wfl c = none →
       writesTo (process_send_request (process_listen_request st nm descr c now).1
           nm msg sender c2 now2 wfl).2 c =
         [[("type", JVal.jstr "message"), ("from", JVal.jstr sender),
           ("message", JVal.jstr msg), ("intent", JVal.jnull), ("intent_banner", JVal.jnull)]]) := by
  constructor
  · simp [process_listen_request, handle_listen, h, handle_client_sends_response, dictGet]
  · intro msg sender c2 now2 wfl hne hwfl
    have hget : dictGet (process_listen_request st nm descr c now).1.sessions nm =
        some ⟨nm, descr, c, none, none, now⟩ := by
      simp [process_listen_request, handle_listen, h, dictGet_dictSet_self]
    simp [process_send_request, handle_send, hget, hwfl, handle_client_sends_response,
          writesTo, hne]

/-- Concrete instantiation of listen_deferred_spec from the empty hub. -/
theorem listen_deferred_spec_witness :
    (process_listen_request emptyHub "alice" "d" 0 0).2 = []
  ∧ writesTo (process_send_request (process_listen_request emptyHub "alice" "d" 0 0).1
        "alice" "hi" "bob" 1 5 (fun _ => none)).2 0 =
      [[("type", JVal.jstr "message"), ("from", JVal.jstr "bob"),
        ("message", JVal.jstr "hi"), ("intent", JVal.jnull), ("intent_banner", JVal.jnull)]] :=
  ⟨(listen_deferred_spec emptyHub "alice" "d" 0 0 (by decide)).1,
   (listen_deferred_spec emptyHub "alice" "d" 0 0 (by decide)).2 "hi" "bob" 1 5
     (fun _ => none) (by decide) rfl⟩

/-- Claim C6 counterexample: in a reachable state where alice's current_caller is the empty string and a caller connection is recorded under that name, respond fails NoCaller, though the claim reserves NoCaller for an unset current_caller and would have this message delivered. -/
theorem respond_nocaller_counterexample :
    (dictGet hubEmptyCaller.sessions "alice").map (fun s => s.current_caller) = some (some "")
  ∧ dictGet hubEmptyCaller.callers "" = some 1
  ∧ handle_respond hubEmptyCaller "alice" "hi" 9 (fun _ => none) =
      ⟨hubEmptyCaller, [("error", JVal.jstr "No caller connected")], []⟩ := by
  decide

/-- Claim C6 amended: respond fails NotFound when the session is absent; fails NoCaller when current_caller is unset or the empty string; fails CallerLost when the caller map has no entry for the caller name; otherwise it refreshes last_activity, writes the response envelope to the recorded caller connection, and returns sent with the caller name; the checks apply in that order and on each of the three errors the state is unchanged. -/
theorem respond_spec (st : HubState) (nm msg : String) (now : Nat) (wfail : Conn → Option String) :
    (dictGet st.sessions nm = none →
       handle_respond st nm msg now wfail =
         ⟨st, [("error", JVal.jstr ("Session \x27" ++ nm ++ "\x27 not found"))], []⟩)
  ∧ (∀ s, dictGet st.sessions nm = some s →
       (s.current_caller = none ∨ s.current_caller = some "") →
       handle_respond st nm msg now wfail = ⟨st, [("error", JVal.jstr "No caller connected")], []⟩)
  ∧ (∀ s c, dictGet st.sessions nm = some s → s.current_caller = some c → c ≠ "" →
       dictGet st.callers c = none →
       handle_respond st nm msg now wfail =
         ⟨st, [("error", JVal.jstr "Caller connection lost")], []⟩)
  ∧ (∀ s c cw, dictGet st.sessions nm = some s → s.current_caller = some c → c ≠ "" →
       dictGet st.callers c = some cw → wfail cw = none →
       handle_respond st nm msg now wfail =
         ⟨{ st with sessions := dictSet st.sessions nm ({ s with last_activity := now }) },
           [("sent", JVal.jbool true), ("to", JVal.jstr c)],
           [(cw, [("type", JVal.jstr "response"), ("from", JVal.jstr nm),
                  ("message", JVal.jstr msg)])]⟩) := by
  refine ⟨?_, ?_, ?_, ?_⟩
  · intro h
    simp [handle_respond, h]
  · intro s h hc
    rcases hc with hc | hc <;> simp [handle_respond, h, hc]
  · intro s c h hc hne hcw
    simp [handle_respond, h, hc, hne, hcw]
  · intro s c cw h hc hne hcw hw
    simp [handle_respond, h, hc, hne, hcw, hw]

/-- A state with bob attached to alice and his connection recorded. -/
def sessBusyW : Session := ⟨"alice", "d", 3, some "bob", some "t", 0⟩

/-- The hub state holding sessBusyW and the caller entry for bob. -/
def hubBusyW : HubState := ⟨[("alice", sessBusyW)], [("bob", 7)]⟩

/-- Concrete instantiation of respond_spec on the delivery branch. -/
theorem respond_spec_witness :
    handle_respond hubBusyW "alice" "hello back" 9 (fun _ => none) =
      ⟨{ hubBusyW with
           sessions := dictSet hubBusyW.sessions "alice" ({ sessBusyW with last_activity := 9 }) },
        [("sent", JVal.jbool true), ("to", JVal.jstr "bob")],
        [(7, [("type", JVal.jstr "response"), ("from", JVal.jstr "alice"),
              ("message", JVal.jstr "hello back")])]⟩ :=
  (respond_spec hubBusyW "alice" "hello back" 9 (fun _ => none)).2.2.2 sessBusyW "bob" 7
    (by decide) (by decide) (by decide) (by decide) rfl

/-- Claim C7 counterexample: refocusing alice while the request runs at time 9 leaves her last_activity at its old value 0: the source never refreshes last_activity on refocus. -/
theorem refocus_activity_counterexample :
    (dictGet (handle_refocus (handle_listen emptyHub "alice" "d" 0 0).state "alice" "t2" 9
        (fun _ => none)).state.sessions "alice").map (fun s => s.last_activity) = some 0
  ∧ (0 : Nat) ≠ 9 := by
  decide

/-- Claim C7 amended: refocus on an existing session replaces current_intent, leaves last_activity and every other session field unchanged, best-effort notifies the attached caller (its result does not depend on the write outcome), and returns old intent, new intent, and the rendered banner; it fails NotFound when the session is absent. -/
theorem refocus_spec (st : HubState) (nm newi : String) (now : Nat)
    (wfail wfail2 : Conn → Option String) :
    (dictGet st.sessions nm = none →
       handle_refocus st nm newi now wfail =
         ⟨st, [("error", JVal.jstr ("Session \x27" ++ nm ++ "\x27 not found"))], []⟩)
  ∧ (∀ s, dictGet st.sessions nm = some s →
       (handle_refocus st nm newi now wfail).state =
         { st with sessions := dictSet st.sessions nm ({ s with current_intent := some newi }) }
     ∧ (handle_refocus st nm newi now wfail).response =
         [("updated", JVal.jbool true),
          ("old_intent", match s.current_intent with | none => JVal.jnull | some i => JVal.jstr i),
          ("new_intent", JVal.jstr newi),
          ("intent_banner", JVal.jstr (format_intent_banner newi true))]
     ∧ (∀ c cw, s.current_caller = some c → c ≠ "" → dictGet st.callers c = some cw →
          (handle_refocus st nm newi now wfail).writes =
            [(cw, [("type", JVal.jstr "refocus"), ("new_intent", JVal.jstr newi),
                   ("intent_banner", JVal.jstr (format_intent_banner newi true))])]))
  ∧ handle_refocus st nm newi now wfail = handle_refocus st nm newi now wfail2 := by
  refine ⟨?_, ?_, rfl⟩
  · intro h
    simp [handle_refocus, h]
  · intro s h
    refine ⟨by simp [handle_refocus, h], by simp [handle_refocus, h], ?_⟩
    intro c cw hc hne hcw
    simp [handle_refocus, h, hc, hne, hcw]

/-- Concrete instantiation of refocus_spec with an attached caller. -/
theorem refocus_spec_witness :
    (handle_refocus hubBusyW "alice" "new topic" 9 (fun _ => none)).state =
      { hubBusyW with
          sessions := dictSet hubBusyW.sessions "alice" (
            { sessBusyW with current_intent := some "new topic" }) }
  ∧ (handle_refocus hubBusyW "alice" "new topic" 9 (fun _ => none)).writes =
      [(7, [("type", JVal.jstr "refocus"), ("new_intent", JVal.jstr "new topic"),
            ("intent_banner", JVal.jstr (format_intent_banner "new topic" true))])] :=
  ⟨((refocus_spec hubBusyW "alice" "new topic" 9 (fun _ => none) (fun _ => some "x")).2.1
      sessBusyW (by decide)).1,
   ((refocus_spec hubBusyW "alice" "new topic" 9 (fun _ => none) (fun _ => some "x")).2.1
      sessBusyW (by decide)).2.2 "bob" 7 (by decide) (by decide) (by decide)⟩

/-- Claim C8: one sweep tick at time now removes exactly the sessions whose idle time strictly exceeds the timeout, keeping every other entry with all its fields unchanged; one timeout notice per evicted session is attempted, addressed to its owner connection, before removal; the outcome does not depend on whether those writes fail; and the callers map is untouched. -/
theorem idle_sweep_spec (st : HubState) (now : Nat) (wfail wfail2 : Conn → Option String) :
    (∀ nm s, (nm, s) ∈ (check_idle_sessions_tick st now wfail).1.sessions ↔
       ((nm, s) ∈ st.sessions ∧ ¬ (now - s.last_activity > IDLE_TIMEOUT_SECONDS)))
  ∧ (check_idle_sessions_tick st now wfail).2 =
      (st.sessions.filter (fun p => decide (now - p.2.last_activity > IDLE_TIMEOUT_SECONDS))).map
        (fun p => (p.2.writer, timeout_notice))
  ∧ (check_idle_sessions_tick st now wfail).1.callers = st.callers
  ∧ check_idle_sessions_tick st now wfail = check_idle_sessions_tick st now wfail2 := by
  refine ⟨?_, rfl, rfl, rfl⟩
  intro nm s
  simp [check_idle_sessions_tick, List.mem_filter]

/-- Concrete instantiation of idle_sweep_spec: a session idle for only 10 seconds survives the sweep. -/
theorem idle_sweep_spec_witness :
    ("alice", sessW) ∈ (check_idle_sessions_tick hubW 10 (fun _ => none)).1.sessions :=
  ((idle_sweep_spec hubW 10 (fun _ => none) (fun _ => some "x")).1 "alice" sessW).mpr (by decide)

/-- Claim C9: client-disconnect cleanup removes exactly the sessions owned by the disconnected connection: an entry survives, with all its fields intact, precisely when its owner connection differs, and the callers map is not modified. -/
theorem disconnect_cleanup_spec (st : HubState) (w : Conn) :
    (∀ nm s, (nm, s) ∈ (handle_client_cleanup st w).sessions ↔
       ((nm, s) ∈ st.sessions ∧ s.writer ≠ w))
  ∧ (handle_client_cleanup st w).callers = st.callers := by
  refine ⟨?_, rfl⟩
  intro nm s
  simp [handle_client_cleanup, List.mem_filter]

/-- Concrete instantiation of disconnect_cleanup_spec: closing connection 9 keeps the session owned by connection 3. -/
theorem disconnect_cleanup_spec_witness :
    ("alice", sessW) ∈ (handle_client_cleanup hubW 9).sessions :=
  ((disconnect_cleanup_spec hubW 9).1 "alice" sessW).mpr (by decide)

/-- Claim C10: send never touches current_caller or current_intent: the target session keeps every field except last_activity, which becomes now, and every other session entry is untouched; moreover a sender who never connected can deliver to a session with no attached caller and no intent: the send succeeds, the envelope carries a null intent and no banner, and the session still reports busy false afterwards. -/
theorem send_frame_spec (st : HubState) (target msg my_name : String) (w : Conn) (now : Nat)
    (wfail : Conn → Option String) :
    (∀ s, dictGet st.sessions target = some s →
       dictGet (handle_send st target msg my_name w now wfail).state.sessions target =
         some ({ s with last_activity := now })
     ∧ (∀ nm2, nm2 ≠ target →
          dictGet (handle_send st target msg my_name w now wfail).state.sessions nm2 =
            dictGet st.sessions nm2))
  ∧ (∀ s, dictGet st.sessions target = some s → s.current_caller = none →
       s.current_intent = none → wfail s.writer = none →
       (handle_send st target msg my_name w now wfail).response =
         [("sent", JVal.jbool true), ("to", JVal.jstr target)]
     ∧ (handle_send st target msg my_name w now wfail).writes =
         [(s.writer, [("type", JVal.jstr "message"), ("from", JVal.jstr my_name),
                      ("message", JVal.jstr msg), ("intent", JVal.jnull),
                      ("intent_banner", JVal.jnull)])]
     ∧ (dictGet (handle_send st target msg my_name w now wfail).state.sessions target).map
         (fun s2 => s2.current_caller.isSome) = some false) := by
  constructor
  · intro s h
    constructor
    · cases hw : wfail s.writer <;> simp [handle_send, h, hw, dictGet_dictSet_self]
    · intro nm2 hne
      cases hw : wfail s.writer <;> simp [handle_send, h, hw, dictGet_dictSet_ne _ _ _ _ hne]
  · intro s h hc hi hw
    refine ⟨by simp [handle_send, h, hc, hi, hw], by simp [handle_send, h, hc, hi, hw], ?_⟩
    simp [handle_send, h, hc, hi, hw, dictGet_dictSet_self]

/-- Concrete instantiation of send_frame_spec: bob, never connected, sends to the idle session alice. -/
theorem send_frame_spec_witness :
    dictGet (handle_send hubW "alice" "hi" "bob" 5 42 (fun _ => none)).state.sessions "alice" =
      some ({ sessW with last_activity := 42 })
  ∧ (handle_send hubW "alice" "hi" "bob" 5 42 (fun _ => none)).response =
      [("sent", JVal.jbool true), ("to", JVal.jstr "alice")]
  ∧ (handle_send hubW "alice" "hi" "bob" 5 42 (fun _ => none)).writes =
      [(3, [("type", JVal.jstr "message"), ("from", JVal.jstr "bob"),
            ("message", JVal.jstr "hi"), ("intent", JVal.jnull), ("intent_banner", JVal.jnull)])]
  ∧ (dictGet (handle_send hubW "alice" "hi" "bob" 5 42 (fun _ => none)).state.sessions "alice").map
      (fun s2 => s2.current_caller.isSome) = some false :=
  ⟨((send_frame_spec hubW "alice" "hi" "bob" 5 42 (fun _ => none)).1 sessW (by decide)).1,
   ((send_frame_spec hubW "alice" "hi" "bob" 5 42 (fun _ => none)).2 sessW (by decide)
      (by decide) (by decide) rfl).1,
   ((send_frame_spec hubW "alice" "hi" "bob" 5 42 (fun _ => none)).2 sessW (by decide)
      (by decide) (by decide) rfl).2.1,
   ((send_frame_spec hubW "alice" "hi" "bob" 5 42 (fun _ => none)).2 sessW (by decide)
      (by decide) (by decide) rfl).2.2⟩

end Hub
